import Mathlib

/-!
Verification of the conversation/message core of the `chatbot-whatsapp`
gateway.

The definitions below are a shallow embedding of the TypeScript source:
the relational store (Prisma) is modelled as explicit record state, each
repository/service method becomes a state-passing Lean function returning
the new store together with an `Except` result (a thrown JS `Error`
becomes the `error` branch), timestamps are naturals supplied by the
caller (`now`), and row ids are the cuid strings Prisma generates.
-/

namespace Chatbot

/-- Decidable equality on `Except` results (needed so witnesses can be
checked by `decide`). -/
instance {ε α : Type} [DecidableEq ε] [DecidableEq α] : DecidableEq (Except ε α)
  | .error a, .error b =>
    if h : a = b then .isTrue (by rw [h]) else .isFalse (by intro hh; cases hh; exact h rfl)
  | .error _, .ok _ => .isFalse (by intro h; cases h)
  | .ok _, .error _ => .isFalse (by intro h; cases h)
  | .ok a, .ok b =>
    if h : a = b then .isTrue (by rw [h]) else .isFalse (by intro hh; cases hh; exact h rfl)

/-- `conversation_status` enum from the Prisma schema. -/
inductive ConversationStatus where
  | ACTIVE
  | CLOSED
  | ARCHIVED
deriving DecidableEq, Repr

/-- `message_role` enum from the Prisma schema. -/
inductive MessageRole where
  | USER
  | ASSISTANT
  | SYSTEM
deriving DecidableEq, Repr

/-- Row of the `conversations` table. -/
structure Conversation where
  id : String
  userId : String
  status : ConversationStatus
  contextSummary : Option String
  lastMessageAt : Nat
  createdAt : Nat
  updatedAt : Nat
deriving DecidableEq, Repr

/-- Row of the `messages` table (`tokensUsed` / `latencyMs` are nullable
INTEGER columns). -/
structure Message where
  id : String
  conversationId : String
  role : MessageRole
  content : String
  twilioSid : Option String
  tokensUsed : Option Int
  latencyMs : Option Int
  createdAt : Nat
deriving DecidableEq, Repr

/-- The relational store: `conversations` and `messages` tables plus a
counter from which the id of the next inserted message row is generated
(modelling Prisma's cuid generation). -/
structure Db where
  conversations : List Conversation
  messages : List Message
  nextMessageId : Nat
deriving DecidableEq, Repr

/-- Errors thrown by the repositories: the two distinct `Error` kinds
built in `closeConversation` / `archiveConversation` /
`updateContextSummary` (not-found also covers Prisma's reject of a bare
`update` on a missing row). -/
inductive RepoError where
  | notFound (id : String)
  | accessDenied
deriving DecidableEq, Repr

/-- `prisma.conversation.findUnique` by primary key. -/
def findConv (db : Db) (id : String) : Option Conversation :=
  db.conversations.find? (fun c => c.id == id)

/-- `prisma.conversation.update` on one row: applies `f` to every row
carrying the given primary key (unique in a well-formed store). -/
def updateConvRows (db : Db) (id : String) (f : Conversation → Conversation) : Db :=
  { db with conversations := db.conversations.map (fun c => if c.id == id then f c else c) }

/-- `ConversationRepository.closeConversation`: look the row up, throw
not-found when absent, throw access-denied when the caller does not own
it, otherwise set `status` to `CLOSED` (Prisma also bumps `updatedAt`).
No check of the current status is made. -/
def closeConversation (db : Db) (now : Nat) (id userId : String) :
    Db × Except RepoError Conversation :=
  match findConv db id with
  | none => (db, .error (.notFound id))
  | some existing =>
    if existing.userId ≠ userId then
      (db, .error .accessDenied)
    else
      (updateConvRows db id (fun c => { c with status := ConversationStatus.CLOSED, updatedAt := now }),
        .ok { existing with status := ConversationStatus.CLOSED, updatedAt := now })

/-- `ConversationRepository.archiveConversation`: same checks as close,
then set `status` to `ARCHIVED`. No check of the current status. -/
def archiveConversation (db : Db) (now : Nat) (id userId : String) :
    Db × Except RepoError Conversation :=
  match findConv db id with
  | none => (db, .error (.notFound id))
  | some existing =>
    if existing.userId ≠ userId then
      (db, .error .accessDenied)
    else
      (updateConvRows db id (fun c => { c with status := ConversationStatus.ARCHIVED, updatedAt := now }),
        .ok { existing with status := ConversationStatus.ARCHIVED, updatedAt := now })

/-- `ConversationRepository.updateContextSummary`: same checks, then set
`contextSummary`. -/
def updateContextSummary (db : Db) (now : Nat) (id : String) (summary : String) (userId : String) :
    Db × Except RepoError Conversation :=
  match findConv db id with
  | none => (db, .error (.notFound id))
  | some existing =>
    if existing.userId ≠ userId then
      (db, .error .accessDenied)
    else
      (updateConvRows db id (fun c => { c with contextSummary := some summary, updatedAt := now }),
        .ok { existing with contextSummary := some summary, updatedAt := now })

/-- `ConversationRepository.updateLastMessageAt`: bare Prisma update of
`lastMessageAt`; Prisma rejects when the row is absent. -/
def updateLastMessageAt (db : Db) (now : Nat) (id : String) :
    Db × Except RepoError Conversation :=
  match findConv db id with
  | none => (db, .error (.notFound id))
  | some existing =>
    (updateConvRows db id (fun c => { c with lastMessageAt := now, updatedAt := now }),
      .ok { existing with lastMessageAt := now, updatedAt := now })

/-! ## Message repository

`orderBy: createdAt` with the surrogate id as deterministic tie-break:
the spec's data model states that ordering within a conversation is by
creation timestamp with ties broken by surrogate id, which makes the
relational answer deterministic (message ids are unique, so the sort key
is total and injective). Descending order is then the reverse of
ascending order. -/

/-- The `createdAt`-then-`id` ordering on message rows. -/
def msgLE (a b : Message) : Prop :=
  a.createdAt < b.createdAt ∨ (a.createdAt = b.createdAt ∧ a.id ≤ b.id)

instance : DecidableRel msgLE := fun a b => by
  unfold msgLE; infer_instance

instance : IsTotal Message msgLE := by
  constructor
  intro a b
  rcases Nat.lt_trichotomy a.createdAt b.createdAt with h | h | h
  · exact Or.inl (Or.inl h)
  · rcases le_total a.id b.id with h2 | h2
    · exact Or.inl (Or.inr ⟨h, h2⟩)
    · exact Or.inr (Or.inr ⟨h.symm, h2⟩)
  · exact Or.inr (Or.inl h)

instance : IsTrans Message msgLE := by
  constructor
  intro a b c hab hbc
  rcases hab with h1 | ⟨e1, i1⟩
  · rcases hbc with h2 | ⟨e2, _⟩
    · exact Or.inl (h1.trans h2)
    · exact Or.inl (e2 ▸ h1)
  · rcases hbc with h2 | ⟨e2, i2⟩
    · exact Or.inl (e1 ▸ h2)
    · exact Or.inr ⟨e1.trans e2, i1.trans i2⟩

/-- Rows of the `messages` table belonging to one conversation. -/
def msgsOfConv (db : Db) (conversationId : String) : List Message :=
  db.messages.filter (fun m => m.conversationId == conversationId)

/-- `MessageRepository.findByConversationId` (no limit): all messages of
the conversation, `orderBy createdAt asc`. -/
def ascMessages (db : Db) (conversationId : String) : List Message :=
  (msgsOfConv db conversationId).insertionSort msgLE

/-- `MessageRepository.findRecentByConversationId`: query `orderBy
createdAt desc` with `take limit`, then `.reverse()` back to
chronological order. -/
def findRecentByConversationId (db : Db) (conversationId : String) (limit : Nat) : List Message :=
  (((ascMessages db conversationId).reverse).take limit).reverse

/-- `MessageRepository.findByTwilioSid`: `findUnique` on the unique
nullable `twilioSid` column. -/
def findByTwilioSid (db : Db) (sid : String) : Option Message :=
  db.messages.find? (fun m => m.twilioSid == some sid)

/-- `MessageRepository.create`: insert a row with a fresh surrogate id
and `createdAt` defaulted to now. -/
def createMessage (db : Db) (now : Nat) (conversationId : String) (role : MessageRole)
    (content : String) (sid : Option String) (tokensUsed latencyMs : Option Int) :
    Db × Message :=
  let msg : Message :=
    { id := "msg-" ++ toString db.nextMessageId
      conversationId := conversationId
      role := role
      content := content
      twilioSid := sid
      tokensUsed := tokensUsed
      latencyMs := latencyMs
      createdAt := now }
  ({ db with messages := db.messages ++ [msg], nextMessageId := db.nextMessageId + 1 }, msg)

/-! ## Context cache

Redis holds, under `conversation:{id}:context`, the JSON serialization
of a conversation with its recent messages.  The embedding abstracts at
the `JSON.parse` boundary: a cache value is `none` when the stored
string is not JSON at all, otherwise the parse tree, with each field a
`JField`.  `JSON.stringify` renders a `Date` as an ISO-8601 string; the
rendering is modelled by the canonical decimal rendering of the
timestamp, and the Zod transform `new Date(s)` (total in JS — an
unparseable string yields an Invalid Date, not an exception) by decimal
parsing with default 0. -/

/-- One JSON field of a cached document. -/
inductive JField where
  | jstr (s : String)
  | jnum (n : Int)
  | jnull
  | jdate (t : Nat)
  | jmissing
deriving DecidableEq, Repr

/-- Parse tree of one cached message object. -/
structure RawMsg where
  id : JField
  role : JField
  content : JField
  createdAt : JField
  tokensUsed : JField
  latencyMs : JField
deriving DecidableEq, Repr

/-- Parse tree of a cached conversation document; `messages` is `none`
when the field is absent or not an array. -/
structure RawDoc where
  id : JField
  userId : JField
  status : JField
  contextSummary : JField
  lastMessageAt : JField
  createdAt : JField
  updatedAt : JField
  messages : Option (List RawMsg)
deriving DecidableEq, Repr

/-- A raw cache entry: `none` models a string `JSON.parse` rejects. -/
def CacheVal := Option RawDoc
deriving DecidableEq, Repr

/-- The redis context cache, keyed by conversation id. -/
def Cache := List (String × CacheVal)
deriving DecidableEq, Repr

def cacheGet (cache : Cache) (id : String) : Option CacheVal :=
  (List.find? (fun kv => kv.1 == id) cache).map (fun kv => kv.2)

def cacheDel (cache : Cache) (id : String) : Cache :=
  List.filter (fun kv => kv.1 != id) cache

/-- `redis.setex` (the TTL itself is not part of the time-free model). -/
def cacheSet (cache : Cache) (id : String) (v : CacheVal) : Cache :=
  (id, v) :: cacheDel cache id

/-- Message shape selected by `findById(include messages)` and described
by `CachedMessageSchema` (the Prisma enum arrives as a plain string). -/
structure CtxMessage where
  id : String
  role : String
  content : String
  createdAt : Nat
  tokensUsed : Option Int
  latencyMs : Option Int
deriving DecidableEq, Repr

/-- `ConversationWithMessages`: a conversation row together with the
selected message shape. -/
structure ConvWithMessages where
  id : String
  userId : String
  status : ConversationStatus
  contextSummary : Option String
  lastMessageAt : Nat
  createdAt : Nat
  updatedAt : Nat
  messages : List CtxMessage
deriving DecidableEq, Repr

def roleStr : MessageRole → String
  | .USER => "USER"
  | .ASSISTANT => "ASSISTANT"
  | .SYSTEM => "SYSTEM"

def statusStr : ConversationStatus → String
  | .ACTIVE => "ACTIVE"
  | .CLOSED => "CLOSED"
  | .ARCHIVED => "ARCHIVED"

/-- `z.nativeEnum(ConversationStatus)`. -/
def parseStatus : String → Option ConversationStatus
  | "ACTIVE" => some ConversationStatus.ACTIVE
  | "CLOSED" => some ConversationStatus.CLOSED
  | "ARCHIVED" => some ConversationStatus.ARCHIVED
  | _ => none

/-- ISO-8601 rendering of a timestamp, modelled canonically. -/
def natToIso (t : Nat) : String := toString t

/-- `new Date(s)` of the Zod transform: total, invalid dates collapse. -/
def strToDate (s : String) : Nat := (s.toNat?).getD 0

/-- `z.string()`. -/
def asStr : JField → Option String
  | .jstr s => some s
  | _ => none

/-- `z.union([z.string(), z.date()]).transform(...)`. -/
def asDateish : JField → Option Nat
  | .jstr s => some (strToDate s)
  | .jdate t => some t
  | _ => none

/-- `z.number().nullable()`. -/
def asNumOrNull : JField → Option (Option Int)
  | .jnum n => some (some n)
  | .jnull => some none
  | _ => none

/-- `z.string().nullable()`. -/
def asStrOrNull : JField → Option (Option String)
  | .jstr s => some (some s)
  | .jnull => some none
  | _ => none

/-- `CachedMessageSchema.parse`. -/
def validateMsg (r : RawMsg) : Option CtxMessage := do
  let id ← asStr r.id
  let role ← asStr r.role
  let content ← asStr r.content
  let createdAt ← asDateish r.createdAt
  let tokensUsed ← asNumOrNull r.tokensUsed
  let latencyMs ← asNumOrNull r.latencyMs
  pure { id, role, content, createdAt, tokensUsed, latencyMs }

/-- `CachedConversationSchema.parse` (`none` = a `ZodError` is thrown). -/
def validateDoc (r : RawDoc) : Option ConvWithMessages := do
  let id ← asStr r.id
  let userId ← asStr r.userId
  let statusS ← asStr r.status
  let status ← parseStatus statusS
  let contextSummary ← asStrOrNull r.contextSummary
  let lastMessageAt ← asDateish r.lastMessageAt
  let createdAt ← asDateish r.createdAt
  let updatedAt ← asDateish r.updatedAt
  let rawMsgs ← r.messages
  let messages ← rawMsgs.mapM validateMsg
  pure { id, userId, status, contextSummary, lastMessageAt, createdAt, updatedAt, messages }

/-- `JSON.parse` + `CachedConversationSchema.parse` of a cache entry. -/
def parseValidate (v : CacheVal) : Option ConvWithMessages :=
  match v with
  | none => none
  | some raw => validateDoc raw

/-- `JSON.stringify` of a conversation document (dates become ISO
strings, nulls become JSON null, the enum its string name). -/
def encodeMsg (m : CtxMessage) : RawMsg :=
  { id := .jstr m.id
    role := .jstr m.role
    content := .jstr m.content
    createdAt := .jstr (natToIso m.createdAt)
    tokensUsed := match m.tokensUsed with | some n => .jnum n | none => .jnull
    latencyMs := match m.latencyMs with | some n => .jnum n | none => .jnull }

def encodeDoc (c : ConvWithMessages) : RawDoc :=
  { id := .jstr c.id
    userId := .jstr c.userId
    status := .jstr (statusStr c.status)
    contextSummary := match c.contextSummary with | some s => .jstr s | none => .jnull
    lastMessageAt := .jstr (natToIso c.lastMessageAt)
    createdAt := .jstr (natToIso c.createdAt)
    updatedAt := .jstr (natToIso c.updatedAt)
    messages := some (c.messages.map encodeMsg) }

/-! ## Conversation service -/

/-- Message row reshaped to the selected context shape. -/
def toCtx (m : Message) : CtxMessage :=
  { id := m.id
    role := roleStr m.role
    content := m.content
    createdAt := m.createdAt
    tokensUsed := m.tokensUsed
    latencyMs := m.latencyMs }

/-- `ConversationRepository.findById(id, includeMessages := true)`:
the conversation with its messages `orderBy createdAt asc`. -/
def findByIdWithMessages (db : Db) (id : String) : Option ConvWithMessages :=
  (findConv db id).map (fun c =>
    { id := c.id
      userId := c.userId
      status := c.status
      contextSummary := c.contextSummary
      lastMessageAt := c.lastMessageAt
      createdAt := c.createdAt
      updatedAt := c.updatedAt
      messages := (ascMessages db id).map toCtx })

/-- `MAX_CONTEXT_MESSAGES` in conversation.service / message.service. -/
def MAX_CONTEXT_MESSAGES : Nat := 10

/-- `messages.slice(-n)`: the last `n` elements. -/
def lastN (l : List CtxMessage) (n : Nat) : List CtxMessage :=
  l.drop (l.length - n)

/-- Error thrown by `getConversationWithContext` on a missing row. -/
inductive SvcError where
  | convNotFound (id : String)
deriving DecidableEq, Repr

/-- `ConversationService.getConversationWithContext`: cache-first; a hit
is JSON-parsed and Zod-validated, an invalid entry is deleted and the
store consulted; the store fallback trims to the last
`MAX_CONTEXT_MESSAGES` messages, writes the trimmed document back to the
cache (TTL 3600 s) and returns it. -/
def getConversationWithContext (cache : Cache) (db : Db) (id : String) :
    Cache × Except SvcError ConvWithMessages :=
  let dbFetch : Cache → Cache × Except SvcError ConvWithMessages := fun cache1 =>
    match findByIdWithMessages db id with
    | none => (cache1, .error (.convNotFound id))
    | some conv =>
      let trimmed := { conv with messages := lastN conv.messages MAX_CONTEXT_MESSAGES }
      (cacheSet cache1 id (some (encodeDoc trimmed)), .ok trimmed)
  match cacheGet cache id with
  | none => dbFetch cache
  | some v =>
    match parseValidate v with
    | some validated => (cache, .ok validated)
    | none => dbFetch (cacheDel cache id)

/-- `ConversationService.updateConversationTimestamp`: bump
`lastMessageAt` in the store, then invalidate the cache entry. -/
def updateConversationTimestamp (db : Db) (cache : Cache) (now : Nat) (id : String) :
    Db × Cache × Except RepoError Unit :=
  match updateLastMessageAt db now id with
  | (db1, .error e) => (db1, cache, .error e)
  | (db1, .ok _) => (db1, cacheDel cache id, .ok ())

/-! ## Message service -/

/-- `MessageService.saveUserMessage`: when a provider SID is given,
probe `findByTwilioSid` first and return the existing row unchanged;
otherwise insert a `USER` row and bump the conversation timestamp. -/
def saveUserMessage (db : Db) (cache : Cache) (now : Nat) (conversationId : String)
    (content : String) (twilioSid : Option String) :
    Db × Cache × Except RepoError Message :=
  let insertPath : Unit → Db × Cache × Except RepoError Message := fun _ =>
    let r := createMessage db now conversationId MessageRole.USER content twilioSid none none
    match updateConversationTimestamp r.1 cache now conversationId with
    | (db2, cache2, .error e) => (db2, cache2, .error e)
    | (db2, cache2, .ok _) => (db2, cache2, .ok r.2)
  match twilioSid with
  | some sid =>
    match findByTwilioSid db sid with
    | some existing => (db, cache, .ok existing)
    | none => insertPath ()
  | none => insertPath ()

/-! ## AI service -/

/-- Message context entries handed to the AI service. -/
structure MessageContext where
  role : String
  content : String
deriving DecidableEq, Repr

/-- `estimateTokens`: `Math.ceil(text.length / 4)`. -/
def estimateTokens (text : String) : Nat :=
  (text.length + 3) / 4

/-- Sum of estimated tokens over a message list. -/
def tokenSum (l : List MessageContext) : Nat :=
  (l.map (fun m => estimateTokens m.content)).sum

/-- `AIResponse` (the floating-point `cost` field is outside the model;
no claim concerns it). -/
structure AIResponse where
  content : String
  tokensUsed : Nat
  inputTokens : Nat
  outputTokens : Nat
  latencyMs : Nat
  model : String
  stopReason : String
deriving DecidableEq, Repr

/-- What the `catch` in the AI service can receive: an
`Anthropic.APIError` carrying an optional HTTP status, or a plain JS
`Error` with a message. -/
inductive JsError where
  | apiError (status : Option Nat) (message : String)
  | jsError (message : String)
deriving DecidableEq, Repr

def MAX_RETRIES : Nat := 3
def INITIAL_RETRY_DELAY : Nat := 1000

/-- `AIService.calculateRetryDelay`: `1000 * 2 ^ (attempt - 1)`. -/
def calculateRetryDelay (attempt : Nat) : Nat :=
  INITIAL_RETRY_DELAY * 2 ^ (attempt - 1)

/-- `AIService.handleAPIError`: maps an `Anthropic.APIError` to the
message of the plain `Error` the method returns. -/
def handleAPIError (status : Option Nat) (message : String) : String :=
  if status == some 429 then
    "Service is currently experiencing high demand. Please try again in a moment."
  else if status == some 400 then
    "Invalid request format"
  else if status == some 401 then
    "Authentication error with LLM service"
  else
    match status with
    | some s =>
      if 500 ≤ s then "LLM service temporarily unavailable"
      else "LLM API error: " ++ message
    | none => "LLM API error: " ++ message

/-- `toLowerCase`, character-wise. -/
def toLowerStr (s : String) : String :=
  String.mk (s.data.map Char.toLower)

/-- Whether `pat` occurs as a contiguous run inside `l`. -/
def infixAt (pat : List Char) : List Char → Bool
  | [] => pat.isEmpty
  | c :: rest => pat.isPrefixOf (c :: rest) || infixAt pat rest

/-- Substring test (JS `String.includes`). -/
def containsSub (s pat : String) : Bool :=
  infixAt pat.data s.data

/-- `AIService.isRetryableError`. -/
def isRetryableError : JsError → Bool
  | .apiError status _ =>
    status == some 429 ||
      (match status with
       | some s => 500 ≤ s
       | none => false)
  | .jsError message =>
    let m := toLowerStr message
    containsSub m "timeout" || containsSub m "network" || containsSub m "econnreset"

/-- Vendor `MessageParam` shape. -/
structure AnthropicMessage where
  role : String
  content : String
deriving DecidableEq, Repr

/-- `AIService.convertToAnthropicMessages`: the list actually handed to
`anthropic.messages.create` — a straight map, no truncation. -/
def convertToAnthropicMessages (messages : List MessageContext) : List AnthropicMessage :=
  messages.map (fun m => { role := m.role, content := m.content })

/-- The message list `callLLMAPI` hands to `anthropic.messages.create`:
exactly `convertToAnthropicMessages(messages)` — `truncateMessages` is
not applied anywhere on this path. -/
def messagesSentToAPI (messages : List MessageContext) : List AnthropicMessage :=
  convertToAnthropicMessages messages

/-- Estimated token sum of a vendor-format message list. -/
def anthTokenSum (l : List AnthropicMessage) : Nat :=
  (l.map (fun m => estimateTokens m.content)).sum

/-- `AIService.callLLMAPI`: performs one SDK call (its outcome is the
`raw` argument) and, in its `catch`, replaces an `APIError` by the plain
`Error` from `handleAPIError` and any other error by a generic one. -/
def callLLMAPI (raw : Except JsError AIResponse) : Except JsError AIResponse :=
  match raw with
  | .ok r => .ok r
  | .error (.apiError status message) => .error (.jsError (handleAPIError status message))
  | .error (.jsError _) => .error (.jsError "Failed to generate response from LLM")

/-- Recursion core of `generateWithRetry`, structural on the number of
retries still allowed (`fuel = MAX_RETRIES - attempt`, so `fuel > 0` is
exactly the guard `attempt < MAX_RETRIES`).  Returns the list of
back-off sleeps performed (ms) and the final outcome. -/
def genRetryGo (raw : Nat → Except JsError AIResponse) :
    Nat → Nat → List Nat × Except JsError AIResponse
  | fuel, attempt =>
    match callLLMAPI (raw attempt) with
    | .ok r => ([], .ok r)
    | .error e =>
      match fuel with
      | 0 => ([], .error e)
      | fuel' + 1 =>
        if isRetryableError e then
          let rest := genRetryGo raw fuel' (attempt + 1)
          (calculateRetryDelay attempt :: rest.1, rest.2)
        else
          ([], .error e)

/-- `AIService.generateWithRetry`: attempt numbers are 1-based; `raw k`
is the outcome of the raw SDK call on attempt `k`. -/
def generateWithRetry (raw : Nat → Except JsError AIResponse) (attempt : Nat) :
    List Nat × Except JsError AIResponse :=
  genRetryGo raw (MAX_RETRIES - attempt) attempt

/-- `AIService.generateResponseWithMetrics` = `generateWithRetry` from
attempt 1. -/
def generateResponseWithMetrics (raw : Nat → Except JsError AIResponse) :
    List Nat × Except JsError AIResponse :=
  generateWithRetry raw 1

/-- Inner loop of `AIService.truncateMessages`: walks the reversed list
(most recent first), prepending kept entries, and stops at the first
message that would push the running total over the ceiling. -/
def truncAux (maxTokens : Nat) : List MessageContext → Nat → List MessageContext → List MessageContext
  | [], _, acc => acc
  | m :: rest, total, acc =>
    let t := estimateTokens m.content
    if total + t > maxTokens then acc
    else truncAux maxTokens rest (total + t) (m :: acc)

/-- `AIService.truncateMessages` (default ceiling 8000). -/
def truncateMessages (messages : List MessageContext) (maxTokens : Nat := 8000) :
    List MessageContext :=
  truncAux maxTokens messages.reverse 0 []

/-! ## Privacy utility

`hashPhoneNumber` uses node `crypto` SHA-256; the algorithm is embedded
below over byte lists, with 32-bit words represented as naturals reduced
mod `2^32`. -/

/-- Case-insensitive prefix test used to model `/^whatsapp:/i`. -/
def startsWithCI (s pre : String) : Bool :=
  (s.data.take pre.data.length).map Char.toLower == pre.data.map Char.toLower

/-- `s.replace(/^whatsapp:/i, "")`: strips one leading, case-insensitive
`whatsapp:` prefix. -/
def stripWhatsappPrefix (s : String) : String :=
  if startsWithCI s "whatsapp:" then String.mk (s.data.drop 9) else s

def mod32 (x : Nat) : Nat := x % 4294967296

/-- Bitwise combination by structural recursion on a fuel of 32 bits
(the core `Nat` bitwise operators recurse by well-founded recursion,
which the kernel cannot evaluate; on arguments below `2^32` this agrees
with them). -/
def bitZip (f : Bool → Bool → Bool) : Nat → Nat → Nat → Nat
  | 0, _, _ => 0
  | fuel + 1, x, y =>
    (cond (f (x % 2 == 1) (y % 2 == 1)) 1 0) + 2 * bitZip f fuel (x / 2) (y / 2)

def and32 (x y : Nat) : Nat := bitZip (fun a b => a && b) 32 x y
def or32 (x y : Nat) : Nat := bitZip (fun a b => a || b) 32 x y
def xor32 (x y : Nat) : Nat := bitZip (fun a b => a != b) 32 x y

/-- 32-bit right rotation. -/
def rotr (x n : Nat) : Nat :=
  mod32 (or32 (x >>> n) (x <<< (32 - n)))

/-- 32-bit complement. -/
def not32 (x : Nat) : Nat := xor32 x 4294967295

def ssig0 (x : Nat) : Nat := xor32 (xor32 (rotr x 7) (rotr x 18)) (x >>> 3)
def ssig1 (x : Nat) : Nat := xor32 (xor32 (rotr x 17) (rotr x 19)) (x >>> 10)
def bsig0 (x : Nat) : Nat := xor32 (xor32 (rotr x 2) (rotr x 13)) (rotr x 22)
def bsig1 (x : Nat) : Nat := xor32 (xor32 (rotr x 6) (rotr x 11)) (rotr x 25)

/-- SHA-256 round constants (FIPS 180-4, in decimal). -/
def shaK : List Nat :=
  [1116352408, 1899447441, 3049323471, 3921009573, 961987163, 1508970993,
   2453635748, 2870763221, 3624381080, 310598401, 607225278, 1426881987,
   1925078388, 2162078206, 2614888103, 3248222580, 3835390401, 4022224774,
   264347078, 604807628, 770255983, 1249150122, 1555081692, 1996064986,
   2554220882, 2821834349, 2952996808, 3210313671, 3336571891, 3584528711,
   113926993, 338241895, 666307205, 773529912, 1294757372, 1396182291,
   1695183700, 1986661051, 2177026350, 2456956037, 2730485921, 2820302411,
   3259730800, 3345764771, 3516065817, 3600352804, 4094571909, 275423344,
   430227734, 506948616, 659060556, 883997877, 958139571, 1322822218,
   1537002063, 1747873779, 1955562222, 2024104815, 2227730452, 2361852424,
   2428436474, 2756734187, 3204031479, 3329325298]

/-- SHA-256 initial hash value (FIPS 180-4, in decimal). -/
def shaH0 : List Nat :=
  [1779033703, 3144134277, 1013904242, 2773480762,
   1359893119, 2600822924, 528734635, 1541459225]

/-- Big-endian byte rendering of `n` on `k` bytes. -/
def toBytesBE (k n : Nat) : List Nat :=
  (List.range k).map (fun i => (n >>> ((k - 1 - i) * 8)) % 256)

/-- Merkle–Damgård padding: `0x80`, zeros, 64-bit big-endian bit length. -/
def shaPad (msg : List Nat) : List Nat :=
  let zeros := (64 - ((msg.length + 9) % 64)) % 64
  msg ++ [0x80] ++ List.replicate zeros 0 ++ toBytesBE 8 (msg.length * 8)

/-- Split into 64-byte blocks (structural recursion on a step fuel so
the kernel can evaluate; `fuel = l.length` always suffices because each
step consumes at least one byte). -/
def chunks64Go : Nat → List Nat → List (List Nat)
  | _, [] => []
  | 0, _ :: _ => []
  | fuel + 1, b :: rest => ((b :: rest).take 64) :: chunks64Go fuel ((b :: rest).drop 64)

def chunks64 (l : List Nat) : List (List Nat) :=
  chunks64Go l.length l

/-- The sixteen 32-bit words of one block (big-endian). -/
def wordsOfBlock (block : List Nat) : List Nat :=
  (List.range 16).map (fun i =>
    (block.getD (4 * i) 0) <<< 24 + (block.getD (4 * i + 1) 0) <<< 16 +
    (block.getD (4 * i + 2) 0) <<< 8 + block.getD (4 * i + 3) 0)

/-- Message-schedule extension to 64 words. -/
def extendW (w16 : List Nat) : List Nat :=
  (List.range 48).foldl
    (fun w i =>
      let j := i + 16
      w ++ [mod32 (ssig1 (w.getD (j - 2) 0) + w.getD (j - 7) 0 +
                   ssig0 (w.getD (j - 15) 0) + w.getD (j - 16) 0)])
    w16

/-- Working state of the compression function. -/
structure Hash8 where
  a : Nat
  b : Nat
  c : Nat
  d : Nat
  e : Nat
  f : Nat
  g : Nat
  h : Nat
deriving DecidableEq, Repr

/-- One compression round. -/
def shaRound (st : Hash8) (kw : Nat × Nat) : Hash8 :=
  let temp1 := mod32 (st.h + bsig1 st.e +
    xor32 (and32 st.e st.f) (and32 (not32 st.e) st.g) + kw.1 + kw.2)
  let temp2 := mod32 (bsig0 st.a +
    xor32 (xor32 (and32 st.a st.b) (and32 st.a st.c)) (and32 st.b st.c))
  { a := mod32 (temp1 + temp2), b := st.a, c := st.b, d := st.c,
    e := mod32 (st.d + temp1), f := st.e, g := st.f, h := st.g }

/-- Compress one block into the running hash (eight words). -/
def compressBlock (hv : List Nat) (block : List Nat) : List Nat :=
  let w := extendW (wordsOfBlock block)
  let init : Hash8 :=
    { a := hv.getD 0 0, b := hv.getD 1 0, c := hv.getD 2 0, d := hv.getD 3 0,
      e := hv.getD 4 0, f := hv.getD 5 0, g := hv.getD 6 0, h := hv.getD 7 0 }
  let fin := (shaK.zip w).foldl shaRound init
  [mod32 (hv.getD 0 0 + fin.a), mod32 (hv.getD 1 0 + fin.b),
   mod32 (hv.getD 2 0 + fin.c), mod32 (hv.getD 3 0 + fin.d),
   mod32 (hv.getD 4 0 + fin.e), mod32 (hv.getD 5 0 + fin.f),
   mod32 (hv.getD 6 0 + fin.g), mod32 (hv.getD 7 0 + fin.h)]

/-- SHA-256 digest of a byte list, as 32 bytes. -/
def sha256Bytes (msg : List Nat) : List Nat :=
  (((chunks64 (shaPad msg)).foldl compressBlock shaH0).map (toBytesBE 4)).flatten

def hexDigit (n : Nat) : Char :=
  if n < 10 then Char.ofNat (48 + n) else Char.ofNat (87 + n)

/-- Lower-case hex rendering of a byte list (`digest("hex")`). -/
def bytesToHex (bs : List Nat) : String :=
  String.mk (bs.flatMap (fun b => [hexDigit (b / 16), hexDigit (b % 16)]))

/-- UTF-8 encoding of one code point. -/
def utf8Char (n : Nat) : List Nat :=
  if n < 0x80 then [n]
  else if n < 0x800 then
    [0xC0 + (n >>> 6), 0x80 + (n % 64)]
  else if n < 0x10000 then
    [0xE0 + (n >>> 12), 0x80 + ((n >>> 6) % 64), 0x80 + (n % 64)]
  else
    [0xF0 + (n >>> 18), 0x80 + ((n >>> 12) % 64),
     0x80 + ((n >>> 6) % 64), 0x80 + (n % 64)]

/-- UTF-8 bytes of a string (what `hash.update(string)` consumes). -/
def utf8Bytes (s : String) : List Nat :=
  (s.data.map (fun c => utf8Char c.toNat)).flatten

/-- `sha256` hex digest of a string. -/
def sha256Hex (s : String) : String :=
  bytesToHex (sha256Bytes (utf8Bytes s))

/-- Default `HASH_SALT` (`env.PRIVACY_HASH_SALT` fallback). -/
def DEFAULT_HASH_SALT : String := "default-salt-CHANGE-IN-PRODUCTION"

/-- `substring(0, n)` on an ASCII string, character-wise. -/
def takeChars (s : String) (n : Nat) : String :=
  String.mk (s.data.take n)

/-- `hashPhoneNumber` with the process salt made explicit: empty input
returns the literal `unknown`; otherwise one leading case-insensitive
`whatsapp:` prefix is stripped and the first 16 hex characters of
`sha256(clean + salt)` are returned. -/
def hashPhoneNumberWith (salt phoneNumber : String) : String :=
  if phoneNumber == "" then "unknown"
  else takeChars (sha256Hex (stripWhatsappPrefix phoneNumber ++ salt)) 16

/-- `hashPhoneNumber` under the default salt. -/
def hashPhoneNumber (phoneNumber : String) : String :=
  hashPhoneNumberWith DEFAULT_HASH_SALT phoneNumber

/-! ## Rate limit middleware -/

def MAX_REQUESTS_PER_WINDOW : Nat := 10
def WINDOW_SIZE_SECONDS : Nat := 60
def MAX_IP_REQUESTS_PER_WINDOW : Nat := 30
def IP_WINDOW_SIZE_SECONDS : Nat := 60

/-- Redis counter state for the rate limiter. -/
def Counters := List (String × Nat)
deriving DecidableEq, Repr

/-- `redis.incr`: atomic increment, creating the key at 1. -/
def redisIncr (st : Counters) (key : String) : Counters × Nat :=
  match List.find? (fun kv => kv.1 == key) st with
  | some kv =>
    (List.map (fun p => if p.1 == key then (p.1, p.2 + 1) else p) st, kv.2 + 1)
  | none => ((key, 1) :: st, 1)

/-! ## TwiML responses and webhook controller -/

def escChar (c : Char) : String :=
  if c = '&' then "&amp;"
  else if c = '<' then "&lt;"
  else if c = '>' then "&gt;"
  else if c = Char.ofNat 39 then "&apos;"
  else if c = Char.ofNat 34 then "&quot;"
  else String.singleton c

/-- XML text escaping performed by the TwiML builder. -/
def escapeXml (s : String) : String :=
  String.join (s.data.map escChar)

/-- `new MessagingResponse(); twiml.message(msg); twiml.toString()`. -/
def twimlMessage (msg : String) : String :=
  "<?xml version=\"1.0\" encoding=\"UTF-8\"?><Response><Message>"
    ++ escapeXml msg ++ "</Message></Response>"

/-- Message sent on the phone-axis 429 (contains "demasiados mensajes"). -/
def phoneLimitMessage : String :=
  "Lo siento, has enviado demasiados mensajes en poco tiempo. Por favor espera un minuto antes de intentar de nuevo. ⏱️"

/-- Message sent on the IP-axis 429. -/
def ipLimitMessage : String :=
  "El servidor está recibiendo demasiadas solicitudes. Por favor intenta de nuevo en un minuto. ⏱️"

/-- Outcome of the rate-limit middleware: pass the request on, or send a
response without invoking the next handler. -/
inductive RLOutcome where
  | proceed
  | reject (status : Nat) (contentType : String) (body : String)
deriving DecidableEq, Repr

/-- `respondWithRateLimitError`. -/
def respondWithRateLimitError (limitType : Bool) : RLOutcome :=
  RLOutcome.reject 429 "text/xml"
    (twimlMessage (if limitType then phoneLimitMessage else ipLimitMessage))

/-- `rateLimitMiddleware`, happy Redis path (the fail-open catch arms
concern store unavailability, outside this state model): increments the
phone-keyed and then the ip-keyed counter, rejects with 429 when the
post-increment phone count exceeds its ceiling, then when the ip count
exceeds its ceiling, and calls `next()` otherwise.  `hashPhone` is the
privacy hash used to build the phone key. -/
def rateLimitMiddleware (hashPhone : String → String) (st : Counters)
    (reqFrom : Option String) (ip : String) : Counters × RLOutcome :=
  match reqFrom with
  | none => (st, .proceed)
  | some f =>
    if f == "" then (st, .proceed)
    else
      let phoneNumber := stripWhatsappPrefix f
      let phoneKey := "ratelimit:phone:" ++ hashPhone phoneNumber
      let r1 := redisIncr st phoneKey
      let ipKey := "ratelimit:ip:" ++ ip
      let r2 := redisIncr r1.1 ipKey
      if r1.2 > MAX_REQUESTS_PER_WINDOW then
        (r2.1, respondWithRateLimitError true)
      else if r2.2 > MAX_IP_REQUESTS_PER_WINDOW then
        (r2.1, respondWithRateLimitError false)
      else
        (r2.1, .proceed)

/-- `users` table row (only the fields the webhook path touches). -/
structure User where
  id : String
  phoneNumber : String
  language : String
deriving DecidableEq, Repr

/-- The fields `handleIncoming` extracts from the webhook body. -/
structure TwilioRequest where
  From : Option String
  Body : Option String
  MessageSid : Option String
deriving DecidableEq, Repr

/-- An HTTP response as the controller produces it (`res.type` +
`res.send` leave the Express default status 200). -/
structure HttpResponse where
  status : Nat
  contentType : String
  body : String
deriving DecidableEq, Repr

/-- `WebhookController.respondWithError` / `respondWithTwiML`: both send
TwiML with the default 200 status. -/
def respondWithTwiML (message : String) : HttpResponse :=
  { status := 200, contentType := "text/xml", body := twimlMessage message }

/-- Early-return message for a missing `From`/`Body`. -/
def CANNOT_PROCESS : String :=
  "Lo siento, no pude procesar tu mensaje. Por favor intenta de nuevo."

/-- Apology sent when any downstream step throws. -/
def ERROR_APOLOGY : String :=
  "Lo siento, estoy experimentando dificultades técnicas en este momento. Por favor intenta de nuevo en unos minutos. 🙏"

/-- The downstream collaborators of the controller, each of which may
throw (the thrown `Error` message is the `error` payload). -/
structure Services where
  getOrCreateConversation : String → Except String (Conversation × User)
  saveUserMessage : String → String → Option String → Except String Message
  getRecentContext : String → Except String (List MessageContext)
  generateResponseWithMetrics : List MessageContext → Except String AIResponse
  saveAssistantMessage : String → String → Nat → Nat → Except String Message

/-- Steps 4–8 of `handleIncoming` in their fixed order; the first
thrown error aborts the sequence. -/
def runPipeline (svc : Services) (phone body : String) (sid : Option String) :
    Except String String := do
  let cu ← svc.getOrCreateConversation phone
  let _ ← svc.saveUserMessage cu.1.id body sid
  let context ← svc.getRecentContext cu.1.id
  let ai ← svc.generateResponseWithMetrics context
  let _ ← svc.saveAssistantMessage cu.1.id ai.content ai.tokensUsed ai.latencyMs
  pure ai.content

/-- `WebhookController.handleIncoming`: extraction gate (`!From ||
!Body`), prefix strip, pipeline, and the catch-all apology reply. -/
def handleIncoming (svc : Services) (req : TwilioRequest) : HttpResponse :=
  let fromVal := req.From.getD ""
  let bodyVal := req.Body.getD ""
  if fromVal == "" || bodyVal == "" then
    respondWithTwiML CANNOT_PROCESS
  else
    match runPipeline svc (stripWhatsappPrefix fromVal) bodyVal req.MessageSid with
    | .ok content => respondWithTwiML content
    | .error _ => respondWithTwiML ERROR_APOLOGY

/-! ## Helper lemmas -/

theorem find?_append_of_none {α : Type} {p : α → Bool} {l1 l2 : List α}
    (h : l1.find? p = none) : (l1 ++ l2).find? p = l2.find? p := by
  simp [List.find?_append, h]

theorem updateConvRows_messages (db : Db) (id : String) (f : Conversation → Conversation) :
    (updateConvRows db id f).messages = db.messages := rfl

theorem reverse_take_reverse {α : Type} (l : List α) (n : Nat) :
    (l.reverse.take n).reverse = l.drop (l.length - n) := by
  have h := List.rtake_eq_reverse_take_reverse (l := l) (n := n)
  simpa [List.rtake] using h.symm

/-! ## Claims -/

/-- C1: for every stored conversation owned by a user other than the
caller, `closeConversation`, `archiveConversation` and
`updateContextSummary` fail with access-denied (or not-found when no
row with that id exists) and leave the store completely unchanged. -/
theorem ownership_check_rejects_and_preserves_store
    (db : Db) (now : Nat) (cid u summary : String)
    (h : ((findConv db cid).all fun c => c.userId != u) = true) :
    ((closeConversation db now cid u).1 = db
      ∧ ((closeConversation db now cid u).2 = Except.error RepoError.accessDenied
          ∨ (closeConversation db now cid u).2 = Except.error (RepoError.notFound cid)))
    ∧ ((archiveConversation db now cid u).1 = db
      ∧ ((archiveConversation db now cid u).2 = Except.error RepoError.accessDenied
          ∨ (archiveConversation db now cid u).2 = Except.error (RepoError.notFound cid)))
    ∧ ((updateContextSummary db now cid summary u).1 = db
      ∧ ((updateContextSummary db now cid summary u).2 = Except.error RepoError.accessDenied
          ∨ (updateContextSummary db now cid summary u).2 = Except.error (RepoError.notFound cid))) := by
  cases hfc : findConv db cid with
  | none =>
    refine ⟨⟨?_, ?_⟩, ⟨?_, ?_⟩, ?_, ?_⟩ <;>
      simp [closeConversation, archiveConversation, updateContextSummary, hfc]
  | some c =>
    have hne : c.userId ≠ u := by
      rw [hfc] at h
      simpa [Option.all] using h
    refine ⟨⟨?_, ?_⟩, ⟨?_, ?_⟩, ?_, ?_⟩ <;>
      simp [closeConversation, archiveConversation, updateContextSummary, hfc, hne]

/-- Witness for C1: a store holding one conversation owned by `alice`,
attacked by caller `mallory`. -/
theorem ownership_check_rejects_and_preserves_store_witness :
    ((findConv ⟨[⟨"c1", "alice", ConversationStatus.ACTIVE, none, 0, 0, 0⟩], [], 0⟩ "c1").all
        fun c => c.userId != "mallory") = true
    ∧ ((closeConversation ⟨[⟨"c1", "alice", ConversationStatus.ACTIVE, none, 0, 0, 0⟩], [], 0⟩
          7 "c1" "mallory").1 = ⟨[⟨"c1", "alice", ConversationStatus.ACTIVE, none, 0, 0, 0⟩], [], 0⟩
      ∧ ((closeConversation ⟨[⟨"c1", "alice", ConversationStatus.ACTIVE, none, 0, 0, 0⟩], [], 0⟩
            7 "c1" "mallory").2 = Except.error RepoError.accessDenied
          ∨ (closeConversation ⟨[⟨"c1", "alice", ConversationStatus.ACTIVE, none, 0, 0, 0⟩], [], 0⟩
            7 "c1" "mallory").2 = Except.error (RepoError.notFound "c1"))) := by
  have h : ((findConv ⟨[⟨"c1", "alice", ConversationStatus.ACTIVE, none, 0, 0, 0⟩], [], 0⟩ "c1").all
      fun c => c.userId != "mallory") = true := by decide
  exact ⟨h, (ownership_check_rejects_and_preserves_store
    ⟨[⟨"c1", "alice", ConversationStatus.ACTIVE, none, 0, 0, 0⟩], [], 0⟩ 7 "c1" "mallory" "s" h).1⟩

/-- C5 counterexample: a CLOSED conversation archived by its owner does
change status — the code checks ownership but never the current status,
so the closed-to-archived transition happens. -/
theorem closed_conversation_archives_counterexample :
    ((findConv ⟨[⟨"c1", "u1", ConversationStatus.CLOSED, none, 0, 0, 0⟩], [], 0⟩ "c1").map
        Conversation.status = some ConversationStatus.CLOSED)
    ∧ ((archiveConversation ⟨[⟨"c1", "u1", ConversationStatus.CLOSED, none, 0, 0, 0⟩], [], 0⟩
          1 "c1" "u1").2 = Except.ok ⟨"c1", "u1", ConversationStatus.ARCHIVED, none, 0, 0, 1⟩)
    ∧ ((findConv (archiveConversation ⟨[⟨"c1", "u1", ConversationStatus.CLOSED, none, 0, 0, 0⟩], [], 0⟩
          1 "c1" "u1").1 "c1").map Conversation.status = some ConversationStatus.ARCHIVED) := by
  decide

/-- C5 amended: `closeConversation` / `archiveConversation` gate only on
existence and ownership; on success they set the status to CLOSED resp.
ARCHIVED unconditionally, whatever the stored status was (so
active-to-closed and active-to-archived hold, but closed and archived
are not terminal: closed-to-archived and archived-to-closed also occur). -/
theorem close_archive_set_status_unconditionally
    (db : Db) (now : Nat) (cid u : String) (c : Conversation)
    (hc : findConv db cid = some c) (hu : c.userId = u) :
    (closeConversation db now cid u).2 =
      Except.ok { c with status := ConversationStatus.CLOSED, updatedAt := now }
    ∧ (archiveConversation db now cid u).2 =
      Except.ok { c with status := ConversationStatus.ARCHIVED, updatedAt := now } := by
  unfold closeConversation archiveConversation
  rw [hc]
  simp [hu]

/-- Witness for C5 amended: the CLOSED conversation of the
counterexample store, archived and closed by its owner. -/
theorem close_archive_set_status_unconditionally_witness :
    (findConv ⟨[⟨"c1", "u1", ConversationStatus.CLOSED, none, 0, 0, 0⟩], [], 0⟩ "c1"
        = some ⟨"c1", "u1", ConversationStatus.CLOSED, none, 0, 0, 0⟩)
    ∧ ((closeConversation ⟨[⟨"c1", "u1", ConversationStatus.CLOSED, none, 0, 0, 0⟩], [], 0⟩
          2 "c1" "u1").2 = Except.ok ⟨"c1", "u1", ConversationStatus.CLOSED, none, 0, 0, 2⟩)
    ∧ ((archiveConversation ⟨[⟨"c1", "u1", ConversationStatus.CLOSED, none, 0, 0, 0⟩], [], 0⟩
          2 "c1" "u1").2 = Except.ok ⟨"c1", "u1", ConversationStatus.ARCHIVED, none, 0, 0, 2⟩) := by
  have hc : findConv ⟨[⟨"c1", "u1", ConversationStatus.CLOSED, none, 0, 0, 0⟩], [], 0⟩ "c1"
      = some ⟨"c1", "u1", ConversationStatus.CLOSED, none, 0, 0, 0⟩ := by decide
  have h := close_archive_set_status_unconditionally
    ⟨[⟨"c1", "u1", ConversationStatus.CLOSED, none, 0, 0, 0⟩], [], 0⟩ 2 "c1" "u1"
    ⟨"c1", "u1", ConversationStatus.CLOSED, none, 0, 0, 0⟩ hc rfl
  exact ⟨hc, h.1, h.2⟩

/-- Characterization of the insert path of `saveUserMessage`: with no
row bearing the SID and an existing conversation, the message row is
appended, the conversation timestamp bumped and the cache entry
invalidated. -/
theorem saveUserMessage_insert_eq
    (db : Db) (cache : Cache) (now : Nat) (cid body s : String) (c : Conversation)
    (hs : findByTwilioSid db s = none) (hc : findConv db cid = some c) :
    saveUserMessage db cache now cid body (some s) =
      (updateConvRows
        { db with
            messages := db.messages ++ [(createMessage db now cid MessageRole.USER body (some s) none none).2]
            nextMessageId := db.nextMessageId + 1 }
        cid (fun x => { x with lastMessageAt := now, updatedAt := now }),
       cacheDel cache cid,
       Except.ok (createMessage db now cid MessageRole.USER body (some s) none none).2) := by
  simp only [saveUserMessage, hs]
  simp only [updateConversationTimestamp, updateLastMessageAt, createMessage]
  rw [show findConv { db with
      messages := db.messages ++
        [{ id := "msg-" ++ toString db.nextMessageId, conversationId := cid,
           role := MessageRole.USER, content := body, twilioSid := some s,
           tokensUsed := none, latencyMs := none, createdAt := now }]
      nextMessageId := db.nextMessageId + 1 } cid = some c from hc]

/-- C2: `saveUserMessage` is idempotent on the provider SID — once a
call with SID `s` has inserted a message, a second call with the same
SID (any body, any conversation id) inserts nothing, leaves the store
untouched and returns exactly the message created by the first call. -/
theorem saveUserMessage_sid_idempotent
    (db : Db) (cache cache1 : Cache) (now now1 : Nat) (cid cid1 body body1 s : String)
    (hs : findByTwilioSid db s = none)
    (hc : (findConv db cid).isSome = true) :
    ∃ m : Message,
      (saveUserMessage db cache now cid body (some s)).2.2 = Except.ok m
      ∧ m.content = body
      ∧ m.twilioSid = some s
      ∧ saveUserMessage (saveUserMessage db cache now cid body (some s)).1 cache1 now1 cid1 body1 (some s)
          = ((saveUserMessage db cache now cid body (some s)).1, cache1, Except.ok m) := by
  obtain ⟨c, hcc⟩ := Option.isSome_iff_exists.mp hc
  have h1 := saveUserMessage_insert_eq db cache now cid body s c hs hcc
  refine ⟨(createMessage db now cid MessageRole.USER body (some s) none none).2,
    by rw [h1], rfl, rfl, ?_⟩
  rw [h1]
  have hfind : findByTwilioSid
      (updateConvRows
        { db with
            messages := db.messages ++ [(createMessage db now cid MessageRole.USER body (some s) none none).2]
            nextMessageId := db.nextMessageId + 1 }
        cid (fun x => { x with lastMessageAt := now, updatedAt := now })) s
      = some (createMessage db now cid MessageRole.USER body (some s) none none).2 := by
    unfold findByTwilioSid at hs ⊢
    rw [updateConvRows_messages]
    show (db.messages ++ [(createMessage db now cid MessageRole.USER body (some s) none none).2]).find? _ = _
    rw [find?_append_of_none hs]
    simp [createMessage]
  simp only [saveUserMessage, hfind]

/-- Witness for C2: an empty message store, one active conversation,
SID `SM1`; the two calls carry different bodies. -/
theorem saveUserMessage_sid_idempotent_witness :
    (findByTwilioSid ⟨[⟨"c1", "u1", ConversationStatus.ACTIVE, none, 0, 0, 0⟩], [], 0⟩ "SM1" = none)
    ∧ ((findConv ⟨[⟨"c1", "u1", ConversationStatus.ACTIVE, none, 0, 0, 0⟩], [], 0⟩ "c1").isSome = true)
    ∧ (∃ m : Message,
        (saveUserMessage ⟨[⟨"c1", "u1", ConversationStatus.ACTIVE, none, 0, 0, 0⟩], [], 0⟩
            [] 3 "c1" "hola" (some "SM1")).2.2 = Except.ok m
        ∧ m.content = "hola"
        ∧ m.twilioSid = some "SM1"
        ∧ saveUserMessage
            (saveUserMessage ⟨[⟨"c1", "u1", ConversationStatus.ACTIVE, none, 0, 0, 0⟩], [], 0⟩
              [] 3 "c1" "hola" (some "SM1")).1 [] 9 "c1" "otra" (some "SM1")
            = ((saveUserMessage ⟨[⟨"c1", "u1", ConversationStatus.ACTIVE, none, 0, 0, 0⟩], [], 0⟩
                [] 3 "c1" "hola" (some "SM1")).1, [], Except.ok m)) := by
  refine ⟨by decide, by decide, ?_⟩
  exact saveUserMessage_sid_idempotent
    ⟨[⟨"c1", "u1", ConversationStatus.ACTIVE, none, 0, 0, 0⟩], [], 0⟩
    [] [] 3 9 "c1" "c1" "hola" "otra" "SM1" (by decide) (by decide)

/-- C9: `findRecentByConversationId` returns exactly the suffix of the
ascending (oldest-first) message list of the conversation obtained by
dropping all but the last `n` entries: the `min(m, n)` most recent
messages in ascending creation order. -/
theorem findRecent_returns_recent_suffix_ascending
    (db : Db) (cid : String) (n : Nat) :
    findRecentByConversationId db cid n
        = (ascMessages db cid).drop ((ascMessages db cid).length - n)
    ∧ (findRecentByConversationId db cid n).length = min (ascMessages db cid).length n
    ∧ findRecentByConversationId db cid n <:+ ascMessages db cid
    ∧ (ascMessages db cid).Sorted msgLE := by
  have key : findRecentByConversationId db cid n
      = (ascMessages db cid).drop ((ascMessages db cid).length - n) := by
    unfold findRecentByConversationId
    exact reverse_take_reverse _ n
  refine ⟨key, ?_, ?_, ?_⟩
  · rw [key, List.length_drop]
    omega
  · rw [key]
    exact List.drop_suffix _ _
  · exact List.sorted_insertionSort msgLE _

/-- C3: once extraction passes (non-empty From and Body), a thrown
error in any downstream step makes `handleIncoming` reply with the
default status 200, content type text/xml, and the fixed localized
apology TwiML; the response is this constant whatever the error was, so
the thrown message never reaches the body. -/
theorem handleIncoming_error_envelope
    (svc : Services) (req : TwilioRequest) (e : String)
    (hf : req.From.getD "" ≠ "")
    (hb : req.Body.getD "" ≠ "")
    (herr : runPipeline svc (stripWhatsappPrefix (req.From.getD "")) (req.Body.getD "")
        req.MessageSid = Except.error e) :
    handleIncoming svc req =
      { status := 200, contentType := "text/xml", body := twimlMessage ERROR_APOLOGY } := by
  have hf2 : (req.From.getD "" == "") = false := by
    simpa using hf
  have hb2 : (req.Body.getD "" == "") = false := by
    simpa using hb
  simp only [handleIncoming, hf2, hb2, Bool.or_self, Bool.false_or, if_neg Bool.false_ne_true,
    herr, respondWithTwiML]

/-- Witness for C3: a request whose LLM step throws; the response is the
apology and contains nothing of the error text. -/
theorem handleIncoming_error_envelope_witness :
    (((TwilioRequest.mk (some "whatsapp:+14155550001") (some "Hola") (some "SM1")).From.getD "") ≠ "")
    ∧ (((TwilioRequest.mk (some "whatsapp:+14155550001") (some "Hola") (some "SM1")).Body.getD "") ≠ "")
    ∧ runPipeline
        (Services.mk
          (fun _ => Except.ok (⟨"c1", "u1", ConversationStatus.ACTIVE, none, 0, 0, 0⟩, ⟨"u1", "+14155550001", "es"⟩))
          (fun _ _ _ => Except.ok ⟨"m1", "c1", MessageRole.USER, "Hola", none, none, none, 0⟩)
          (fun _ => Except.ok [])
          (fun _ => Except.error "anthropic exploded: secret internals")
          (fun _ _ _ _ => Except.ok ⟨"m2", "c1", MessageRole.ASSISTANT, "", none, none, none, 0⟩))
        (stripWhatsappPrefix ((TwilioRequest.mk (some "whatsapp:+14155550001") (some "Hola") (some "SM1")).From.getD ""))
        ((TwilioRequest.mk (some "whatsapp:+14155550001") (some "Hola") (some "SM1")).Body.getD "")
        (TwilioRequest.mk (some "whatsapp:+14155550001") (some "Hola") (some "SM1")).MessageSid
        = Except.error "anthropic exploded: secret internals"
    ∧ handleIncoming
        (Services.mk
          (fun _ => Except.ok (⟨"c1", "u1", ConversationStatus.ACTIVE, none, 0, 0, 0⟩, ⟨"u1", "+14155550001", "es"⟩))
          (fun _ _ _ => Except.ok ⟨"m1", "c1", MessageRole.USER, "Hola", none, none, none, 0⟩)
          (fun _ => Except.ok [])
          (fun _ => Except.error "anthropic exploded: secret internals")
          (fun _ _ _ _ => Except.ok ⟨"m2", "c1", MessageRole.ASSISTANT, "", none, none, none, 0⟩))
        (TwilioRequest.mk (some "whatsapp:+14155550001") (some "Hola") (some "SM1"))
        = { status := 200, contentType := "text/xml", body := twimlMessage ERROR_APOLOGY } := by
  refine ⟨by decide, by decide, by rfl, ?_⟩
  exact handleIncoming_error_envelope _ _ "anthropic exploded: secret internals"
    (by decide) (by decide) (by rfl)

/-- C4 (code bug): the claim describes the retry classifier, but the
classifier never sees an HTTP error — `callLLMAPI` replaces every
`APIError` by a plain `Error` whose message matches no retry keyword, so
a 429 (or 5xx) failure is never retried even though `isRetryableError`
marks the raw error retryable: on attempt outcomes (429, success) the
service performs no back-off sleep and fails after a single attempt. -/
theorem api_errors_never_retried :
    (generateResponseWithMetrics (fun k =>
        if k = 1 then Except.error (JsError.apiError (some 429) "rate limited")
        else Except.ok ⟨"Respuesta", 15, 10, 5, 100, "claude", "end_turn"⟩)
      = ([], Except.error (JsError.jsError
          "Service is currently experiencing high demand. Please try again in a moment.")))
    ∧ (generateResponseWithMetrics (fun k =>
        if k = 1 then Except.error (JsError.apiError (some 500) "server error")
        else Except.ok ⟨"Respuesta", 15, 10, 5, 100, "claude", "end_turn"⟩)
      = ([], Except.error (JsError.jsError "LLM service temporarily unavailable")))
    ∧ isRetryableError (JsError.apiError (some 429) "rate limited") = true
    ∧ isRetryableError (JsError.apiError (some 500) "server error") = true
    ∧ isRetryableError (JsError.apiError (some 400) "bad request") = false
    ∧ isRetryableError (JsError.apiError (some 401) "auth") = false := by
  refine ⟨by rfl, by rfl, by decide, by decide, by decide, by decide⟩

theorem tokenSum_nil : tokenSum [] = 0 := rfl

theorem tokenSum_cons (m : MessageContext) (l : List MessageContext) :
    tokenSum (m :: l) = estimateTokens m.content + tokenSum l := by
  simp [tokenSum]

/-- The running total of the truncation loop never exceeds the ceiling. -/
theorem truncAux_token_bound (maxT : Nat) :
    ∀ (rl : List MessageContext) (total : Nat) (acc : List MessageContext), total ≤ maxT →
      tokenSum (truncAux maxT rl total acc) + total ≤ maxT + tokenSum acc := by
  intro rl
  induction rl with
  | nil =>
    intro total acc h
    simp only [truncAux]
    omega
  | cons m rest ih =>
    intro total acc h
    by_cases hc : total + estimateTokens m.content > maxT
    · simp only [truncAux, if_pos hc]
      omega
    · have h2 : total + estimateTokens m.content ≤ maxT := by omega
      have hrec := ih (total + estimateTokens m.content) (m :: acc) h2
      rw [tokenSum_cons] at hrec
      simp only [truncAux, if_neg hc]
      omega

/-- The truncation loop keeps an initial run of the reversed input. -/
theorem truncAux_take (maxT : Nat) :
    ∀ (rl : List MessageContext) (total : Nat) (acc : List MessageContext),
      ∃ k, truncAux maxT rl total acc = (rl.take k).reverse ++ acc := by
  intro rl
  induction rl with
  | nil =>
    intro total acc
    exact ⟨0, by simp [truncAux]⟩
  | cons m rest ih =>
    intro total acc
    by_cases hc : total + estimateTokens m.content > maxT
    · exact ⟨0, by simp [truncAux, if_pos hc]⟩
    · obtain ⟨k, hk⟩ := ih (total + estimateTokens m.content) (m :: acc)
      refine ⟨k + 1, ?_⟩
      simp only [truncAux, if_neg hc, hk, List.take_succ_cons, List.reverse_cons,
        List.append_assoc, List.singleton_append]

theorem singleton_sent_token_sum (r : String) (l : List Char) :
    anthTokenSum (messagesSentToAPI [⟨r, String.mk l⟩]) = (l.length + 3) / 4 := by
  unfold anthTokenSum messagesSentToAPI convertToAnthropicMessages estimateTokens
  rw [List.map_cons, List.map_nil, List.map_cons, List.map_nil, List.sum_cons, List.sum_nil]
  show ((String.mk l).length + 3) / 4 + 0 = (l.length + 3) / 4
  rw [Nat.add_zero]
  rfl

/-- C7 counterexample: a single over-budget message (40001 characters,
10001 estimated tokens) is handed to the API unchanged — the token sum
of the list `callLLMAPI` sends exceeds the 8000 ceiling the claim says
is enforced before every call. -/
theorem untruncated_overbudget_list_sent_to_api :
    anthTokenSum (messagesSentToAPI
        [⟨"user", String.mk (List.replicate 40001 'a')⟩]) = 10001
    ∧ 8000 < anthTokenSum (messagesSentToAPI
        [⟨"user", String.mk (List.replicate 40001 'a')⟩]) := by
  have h := singleton_sent_token_sum "user" (List.replicate 40001 'a')
  rw [List.length_replicate] at h
  exact ⟨h, by rw [h]; omega⟩

/-- C7 amended: `truncateMessages` itself does truncate from the oldest
end, keeping a suffix of the input whose estimated token sum stays
within the ceiling (8000 by default) — but the service never invokes it
on the API path: `callLLMAPI` sends `convertToAnthropicMessages` of its
unmodified input. -/
theorem truncateMessages_bound_suffix_api_unchanged
    (messages : List MessageContext) (maxTokens : Nat) :
    tokenSum (truncateMessages messages maxTokens) ≤ maxTokens
    ∧ truncateMessages messages maxTokens <:+ messages
    ∧ messagesSentToAPI messages
        = messages.map (fun m => { role := m.role, content := m.content }) := by
  refine ⟨?_, ?_, rfl⟩
  · have h := truncAux_token_bound maxTokens messages.reverse 0 [] (Nat.zero_le _)
    rw [tokenSum_nil] at h
    unfold truncateMessages
    omega
  · obtain ⟨k, hk⟩ := truncAux_take maxTokens messages.reverse 0 []
    unfold truncateMessages
    rw [hk, List.append_nil, reverse_take_reverse messages k]
    exact List.drop_suffix _ _

/-- C6: `getConversationWithContext` is cache-first.  A hit is
JSON-parsed and validated against the cached-conversation schema and
returned as-is; on parse or validation failure the entry is deleted and
the conversation fetched from the store with its messages in ascending
creation order, trimmed to the last 10, written back to the cache, and
the trimmed document returned. -/
theorem getConversationWithContext_cache_validated
    (cache : Cache) (db : Db) (cid : String) :
    (∀ v validated, cacheGet cache cid = some v → parseValidate v = some validated →
      getConversationWithContext cache db cid = (cache, Except.ok validated))
    ∧ (∀ v conv, cacheGet cache cid = some v → parseValidate v = none →
        findByIdWithMessages db cid = some conv →
        getConversationWithContext cache db cid =
          (cacheSet (cacheDel cache cid) cid
            (some (encodeDoc { conv with messages := lastN conv.messages MAX_CONTEXT_MESSAGES })),
           Except.ok { conv with messages := lastN conv.messages MAX_CONTEXT_MESSAGES }))
    ∧ (∀ conv, findByIdWithMessages db cid = some conv →
        conv.messages = (ascMessages db cid).map toCtx
        ∧ lastN conv.messages MAX_CONTEXT_MESSAGES
            = conv.messages.drop (conv.messages.length - 10)
        ∧ (ascMessages db cid).Sorted msgLE) := by
  refine ⟨?_, ?_, ?_⟩
  · intro v validated hv hval
    simp only [getConversationWithContext, hv, hval]
  · intro v conv hv hval hconv
    simp only [getConversationWithContext, hv, hval, hconv]
  · intro conv hconv
    refine ⟨?_, rfl, List.sorted_insertionSort msgLE _⟩
    unfold findByIdWithMessages at hconv
    cases hfc : findConv db cid with
    | none =>
      rw [hfc] at hconv
      exact absurd hconv (by simp)
    | some c =>
      rw [hfc] at hconv
      simp only [Option.map_some'] at hconv
      rw [← Option.some.inj hconv]

/-- Witness for C6: a cache entry whose status field fails the schema is
deleted; the store's two messages come back ascending and cached. -/
theorem getConversationWithContext_cache_validated_witness :
    cacheGet [("c1", some ⟨JField.jstr "c1", JField.jstr "u1", JField.jstr "BOGUS", JField.jnull,
        JField.jstr "0", JField.jstr "0", JField.jstr "0", some []⟩)] "c1"
      = some (some ⟨JField.jstr "c1", JField.jstr "u1", JField.jstr "BOGUS", JField.jnull,
        JField.jstr "0", JField.jstr "0", JField.jstr "0", some []⟩)
    ∧ parseValidate (some ⟨JField.jstr "c1", JField.jstr "u1", JField.jstr "BOGUS", JField.jnull,
        JField.jstr "0", JField.jstr "0", JField.jstr "0", some []⟩) = none
    ∧ findByIdWithMessages ⟨[⟨"c1", "u1", ConversationStatus.ACTIVE, none, 5, 1, 2⟩],
        [⟨"m2", "c1", MessageRole.ASSISTANT, "resp", none, some 15, some 100, 11⟩,
         ⟨"m1", "c1", MessageRole.USER, "hola", some "SM1", none, none, 10⟩], 3⟩ "c1"
      = some ⟨"c1", "u1", ConversationStatus.ACTIVE, none, 5, 1, 2,
          [⟨"m1", "USER", "hola", 10, none, none⟩, ⟨"m2", "ASSISTANT", "resp", 11, some 15, some 100⟩]⟩
    ∧ getConversationWithContext
        [("c1", some ⟨JField.jstr "c1", JField.jstr "u1", JField.jstr "BOGUS", JField.jnull,
          JField.jstr "0", JField.jstr "0", JField.jstr "0", some []⟩)]
        ⟨[⟨"c1", "u1", ConversationStatus.ACTIVE, none, 5, 1, 2⟩],
          [⟨"m2", "c1", MessageRole.ASSISTANT, "resp", none, some 15, some 100, 11⟩,
           ⟨"m1", "c1", MessageRole.USER, "hola", some "SM1", none, none, 10⟩], 3⟩ "c1"
      = (cacheSet (cacheDel [("c1", some ⟨JField.jstr "c1", JField.jstr "u1", JField.jstr "BOGUS",
            JField.jnull, JField.jstr "0", JField.jstr "0", JField.jstr "0", some []⟩)] "c1") "c1"
          (some (encodeDoc ⟨"c1", "u1", ConversationStatus.ACTIVE, none, 5, 1, 2,
            [⟨"m1", "USER", "hola", 10, none, none⟩, ⟨"m2", "ASSISTANT", "resp", 11, some 15, some 100⟩]⟩)),
         Except.ok ⟨"c1", "u1", ConversationStatus.ACTIVE, none, 5, 1, 2,
            [⟨"m1", "USER", "hola", 10, none, none⟩, ⟨"m2", "ASSISTANT", "resp", 11, some 15, some 100⟩]⟩) := by
  refine ⟨by decide, by decide, by decide, ?_⟩
  exact (getConversationWithContext_cache_validated
      [("c1", some ⟨JField.jstr "c1", JField.jstr "u1", JField.jstr "BOGUS", JField.jnull,
        JField.jstr "0", JField.jstr "0", JField.jstr "0", some []⟩)]
      ⟨[⟨"c1", "u1", ConversationStatus.ACTIVE, none, 5, 1, 2⟩],
        [⟨"m2", "c1", MessageRole.ASSISTANT, "resp", none, some 15, some 100, 11⟩,
         ⟨"m1", "c1", MessageRole.USER, "hola", some "SM1", none, none, 10⟩], 3⟩ "c1").2.1
    (some ⟨JField.jstr "c1", JField.jstr "u1", JField.jstr "BOGUS", JField.jnull,
      JField.jstr "0", JField.jstr "0", JField.jstr "0", some []⟩)
    ⟨"c1", "u1", ConversationStatus.ACTIVE, none, 5, 1, 2,
      [⟨"m1", "USER", "hola", 10, none, none⟩, ⟨"m2", "ASSISTANT", "resp", 11, some 15, some 100⟩]⟩
    (by decide) (by decide) (by decide)

set_option maxRecDepth 40000 in
/-- C8: with a `From` present, the middleware rejects with status 429
and a TwiML apology exactly when the post-increment phone counter
exceeds 10 or the post-increment IP counter exceeds 30, never invoking
the next handler in that case; at or below both ceilings it proceeds;
the phone check runs first, so when both axes are over limit the
phone-limit message (containing "demasiados mensajes") is emitted.  The
60-second window is realised by Redis key expiry, outside this
time-free counter model. -/
theorem rateLimit_dual_axis
    (hashPhone : String → String) (st : Counters) (f ip : String)
    (hf : f ≠ "") :
    (MAX_REQUESTS_PER_WINDOW < (redisIncr st ("ratelimit:phone:" ++ hashPhone (stripWhatsappPrefix f))).2 →
      rateLimitMiddleware hashPhone st (some f) ip
        = ((redisIncr (redisIncr st ("ratelimit:phone:" ++ hashPhone (stripWhatsappPrefix f))).1
              ("ratelimit:ip:" ++ ip)).1,
           RLOutcome.reject 429 "text/xml" (twimlMessage phoneLimitMessage)))
    ∧ ((redisIncr st ("ratelimit:phone:" ++ hashPhone (stripWhatsappPrefix f))).2 ≤ MAX_REQUESTS_PER_WINDOW →
        MAX_IP_REQUESTS_PER_WINDOW < (redisIncr (redisIncr st ("ratelimit:phone:" ++ hashPhone (stripWhatsappPrefix f))).1
            ("ratelimit:ip:" ++ ip)).2 →
      rateLimitMiddleware hashPhone st (some f) ip
        = ((redisIncr (redisIncr st ("ratelimit:phone:" ++ hashPhone (stripWhatsappPrefix f))).1
              ("ratelimit:ip:" ++ ip)).1,
           RLOutcome.reject 429 "text/xml" (twimlMessage ipLimitMessage)))
    ∧ ((redisIncr st ("ratelimit:phone:" ++ hashPhone (stripWhatsappPrefix f))).2 ≤ MAX_REQUESTS_PER_WINDOW →
        (redisIncr (redisIncr st ("ratelimit:phone:" ++ hashPhone (stripWhatsappPrefix f))).1
            ("ratelimit:ip:" ++ ip)).2 ≤ MAX_IP_REQUESTS_PER_WINDOW →
      rateLimitMiddleware hashPhone st (some f) ip
        = ((redisIncr (redisIncr st ("ratelimit:phone:" ++ hashPhone (stripWhatsappPrefix f))).1
              ("ratelimit:ip:" ++ ip)).1,
           RLOutcome.proceed))
    ∧ containsSub (twimlMessage phoneLimitMessage) "demasiados mensajes" = true := by
  have hf2 : (f == "") = false := by simpa using hf
  refine ⟨?_, ?_, ?_, by decide⟩
  · intro h
    simp only [rateLimitMiddleware, hf2, Bool.false_eq_true, if_false, if_pos h,
      respondWithRateLimitError, if_true]
  · intro h1 h2
    simp only [rateLimitMiddleware, hf2, Bool.false_eq_true, if_false,
      if_neg (Nat.not_lt.mpr h1), if_pos h2, respondWithRateLimitError, if_false,
      Bool.false_eq_true]
  · intro h1 h2
    simp only [rateLimitMiddleware, hf2, Bool.false_eq_true, if_false,
      if_neg (Nat.not_lt.mpr h1), if_neg (Nat.not_lt.mpr h2)]

/-- Witness for C8: a first request on empty counters is under both
ceilings and proceeds. -/
theorem rateLimit_dual_axis_witness :
    ("whatsapp:+14155550002" : String) ≠ ""
    ∧ (redisIncr [] ("ratelimit:phone:" ++
        (fun _ => "h") (stripWhatsappPrefix "whatsapp:+14155550002"))).2 ≤ MAX_REQUESTS_PER_WINDOW
    ∧ (redisIncr (redisIncr [] ("ratelimit:phone:" ++
        (fun _ => "h") (stripWhatsappPrefix "whatsapp:+14155550002"))).1
        ("ratelimit:ip:" ++ "10.0.0.1")).2 ≤ MAX_IP_REQUESTS_PER_WINDOW
    ∧ rateLimitMiddleware (fun _ => "h") [] (some "whatsapp:+14155550002") "10.0.0.1"
        = ((redisIncr (redisIncr [] ("ratelimit:phone:" ++
            (fun _ => "h") (stripWhatsappPrefix "whatsapp:+14155550002"))).1
            ("ratelimit:ip:" ++ "10.0.0.1")).1,
           RLOutcome.proceed) := by
  refine ⟨by decide, by decide, by decide, ?_⟩
  exact (rateLimit_dual_axis (fun _ => "h") [] "whatsapp:+14155550002" "10.0.0.1"
    (by decide)).2.2.1 (by decide) (by decide)

set_option maxRecDepth 100000 in
set_option maxHeartbeats 4000000 in
/-- C10 counterexample: at p = "" the prefix invariance fails.
`hashPhoneNumber ("whatsapp:" ++ "")` strips the prefix and hashes the
empty string with the salt (16 hex characters), while
`hashPhoneNumber ""` short-circuits to the literal `unknown`. -/
theorem hashPhoneNumber_prefix_counterexample :
    hashPhoneNumber ("whatsapp:" ++ "") ≠ hashPhoneNumber ""
    ∧ hashPhoneNumber "" = "unknown" := by
  constructor
  · decide
  · rfl

/-- C10 amended: for every salt and every non-empty `p` that does not
itself start with a case-insensitive `whatsapp:` prefix,
`hashPhoneNumber("whatsapp:" + p)` equals `hashPhoneNumber(p)`, and the
result is the 16-hex-character prefix of `sha256(p + salt)`.  (For the
empty string the result is the literal `unknown`, and for `p` already
prefixed the stripped tail is hashed instead.) -/
theorem hashPhoneNumber_prefix_invariant
    (salt p : String) (hne : p ≠ "") (hpre : startsWithCI p "whatsapp:" = false) :
    hashPhoneNumberWith salt ("whatsapp:" ++ p) = hashPhoneNumberWith salt p
    ∧ hashPhoneNumberWith salt p = takeChars (sha256Hex (p ++ salt)) 16 := by
  have hci : startsWithCI ("whatsapp:" ++ p) "whatsapp:" = true := by
    unfold startsWithCI
    rw [String.data_append, List.take_left' (by rfl)]
    simp
  have hstrip1 : stripWhatsappPrefix ("whatsapp:" ++ p) = p := by
    unfold stripWhatsappPrefix
    simp only [hci, if_true]
    rw [String.data_append, List.drop_left' (by decide : ("whatsapp:".data).length = 9)]
  have hstrip2 : stripWhatsappPrefix p = p := by
    unfold stripWhatsappPrefix
    simp [hpre]
  have hne1 : (("whatsapp:" ++ p) == "") = false := by
    have hx : ("whatsapp:" ++ p) ≠ "" := by
      intro h
      have hd := congrArg String.data h
      rw [String.data_append] at hd
      have : "whatsapp:".data = [] := (List.append_eq_nil.mp hd).1
      exact absurd this (by decide)
    exact beq_eq_false_iff_ne.mpr hx
  have hne2 : (p == "") = false := beq_eq_false_iff_ne.mpr hne
  unfold hashPhoneNumberWith
  simp only [hne1, hne2, Bool.false_eq_true, if_false, hstrip1, hstrip2]
  exact ⟨trivial, trivial⟩

/-- Witness for C10 amended: a plain E.164 number under the default
salt. -/
theorem hashPhoneNumber_prefix_invariant_witness :
    ("+14155550001" : String) ≠ ""
    ∧ startsWithCI "+14155550001" "whatsapp:" = false
    ∧ hashPhoneNumberWith DEFAULT_HASH_SALT ("whatsapp:" ++ "+14155550001")
        = hashPhoneNumberWith DEFAULT_HASH_SALT "+14155550001"
    ∧ hashPhoneNumberWith DEFAULT_HASH_SALT "+14155550001"
        = takeChars (sha256Hex ("+14155550001" ++ DEFAULT_HASH_SALT)) 16 := by
  refine ⟨by decide, by decide, ?_, ?_⟩
  · exact (hashPhoneNumber_prefix_invariant DEFAULT_HASH_SALT "+14155550001"
      (by decide) (by decide)).1
  · exact (hashPhoneNumber_prefix_invariant DEFAULT_HASH_SALT "+14155550001"
      (by decide) (by decide)).2

end Chatbot
